import Mathlib

/-!
Shallow embedding of `src/catalog/models.py` from the `My_locallibrary`
repository: the data model (Genre, Language, Book, BookInstance, Author),
its derived accessors (`__str__`, `get_absolute_url`, `display_genre`,
`is_overdue`), the default `Meta.ordering` of queries, and the
create/update/delete semantics induced by the field declarations
(`unique=True`, `max_length`, `choices`, `on_delete=SET_NULL`,
`on_delete=RESTRICT`, `default=uuid.uuid4`).
-/

namespace Catalog

/-- A calendar date, as Python's `datetime.date`: compared
lexicographically on (year, month, day). -/
structure Date where
  year : Nat
  month : Nat
  day : Nat
deriving DecidableEq, Repr

/-- Python's `date.__lt__`: lexicographic on (year, month, day). -/
def Date.ltb (a b : Date) : Bool :=
  a.year < b.year ||
    (a.year == b.year &&
      (a.month < b.month || (a.month == b.month && a.day < b.day)))

/-- Lexicographic key of a date, used for ordering queries. -/
def Date.toLexKey (d : Date) : Nat ×ₗ (Nat ×ₗ Nat) :=
  toLex (d.year, toLex (d.month, d.day))

/-- `class Genre(models.Model)`: `name = models.CharField(max_length=200, ...)`. -/
structure Genre where
  id : Nat
  name : String
deriving DecidableEq, Repr

/-- `Genre.__str__` returns `self.name`. -/
def Genre.str (g : Genre) : String := g.name

/-- `class Language(models.Model)`: `name = models.CharField(max_length=100, ...)`. -/
structure Language where
  id : Nat
  name : String
deriving DecidableEq, Repr

/-- `Language.__str__` returns `self.name`. -/
def Language.str (l : Language) : String := l.name

/-- `class Book(models.Model)`.  `author` is a nullable foreign key
(`on_delete=models.SET_NULL, null=True`) stored as the author's primary
key; `genre` is a many-to-many field stored as the list of attached
genres, in attachment order; `isbn = models.CharField(max_length=13,
unique=True)`. -/
structure Book where
  id : Nat
  title : String
  author : Option Nat
  summary : String
  isbn : String
  genre : List Genre
deriving DecidableEq, Repr

/-- `Book.__str__` returns `self.title`. -/
def Book.str (b : Book) : String := b.title

/-- `Book.get_absolute_url`: `reverse('book-detail', args=[str(self.id)])`.
The framework's `reverse` is an external collaborator, so it is passed in. -/
def Book.get_absolute_url (reverse : String → List String → String)
    (b : Book) : String :=
  reverse "book-detail" [toString b.id]

/-- `Book.display_genre`: `', '.join(genre.name for genre in self.genre.all()[:3])`. -/
def Book.display_genre (b : Book) : String :=
  String.intercalate ", " ((b.genre.take 3).map Genre.name)

/-- A UUID as produced by Python's `uuid.uuid4()`: version 4 with random
bits.  The generator is modelled as a stream of fresh values (`randomBits`
drawn from a counter), capturing that each call yields a fresh value. -/
structure Uuid where
  version : Nat
  randomBits : Nat
deriving DecidableEq, Repr

/-- `uuid.uuid4`: draws a fresh version-4 UUID from the generator state. -/
def uuid4 (g : Nat) : Uuid × Nat :=
  ({ version := 4, randomBits := g }, g + 1)

/-- Rendering of a UUID (as interpolated into f-strings). -/
def Uuid.str (u : Uuid) : String := toString u.randomBits

/-- `class BookInstance(models.Model)`.  `id` is a UUID primary key
(`default=uuid.uuid4`); `book` is a nullable foreign key with
`on_delete=models.RESTRICT`; `borrower` is a nullable foreign key to a
user; `status` is a one-character field with `choices=LOAN_STATUS` and
`default='m'`. -/
structure BookInstance where
  id : Uuid
  book : Option Nat
  imprint : String
  due_back : Option Date
  borrower : Option Nat
  status : Char
deriving DecidableEq, Repr

/-- The status codes of `LOAN_STATUS`: Maintenance, On loan, Available,
Reserved. -/
def loanStatusCodes : List Char := ['m', 'o', 'a', 'r']

/-- `BookInstance.is_overdue`:
`if self.due_back and date.today() > self.due_back: return True` /
`return False`.  A non-null Python `date` is always truthy, so the test
reads: `due_back` is not `None` and today is after it.  `date.today()`
is external state, passed in as `today`. -/
def BookInstance.is_overdue (today : Date) (bi : BookInstance) : Bool :=
  match bi.due_back with
  | none => false
  | some d => Date.ltb d today

/-- `class Author(models.Model)`. -/
structure Author where
  id : Nat
  first_name : String
  last_name : String
  date_of_birth : Option Date
  date_of_death : Option Date
deriving DecidableEq, Repr

/-- `Author.__str__` returns `f'{self.first_name}, {self.last_name}'`. -/
def Author.str (a : Author) : String :=
  a.first_name ++ ", " ++ a.last_name

/-- `Author.get_absolute_url`: `reverse('author-detail', args=[str(self.id)])`. -/
def Author.get_absolute_url (reverse : String → List String → String)
    (a : Author) : String :=
  reverse "author-detail" [toString a.id]

/-- The database state: one table per model plus the UUID generator
state consumed by `BookInstance.id`'s `default=uuid.uuid4`. -/
structure DB where
  genres : List Genre
  languages : List Language
  books : List Book
  instances : List BookInstance
  authors : List Author
  uuidGen : Nat
deriving Repr

/-- `BookInstance.__str__`: `f'{self.id}({self.book.title})'`.  The
`self.book` descriptor fetches the referenced Book row; on a null (or
dangling) reference the attribute access `self.book.title` raises, which
the embedding renders as `none`. -/
def BookInstance.strRepr (db : DB) (bi : BookInstance) : Option String :=
  bi.book.bind fun bid =>
    (db.books.find? fun b => b.id == bid).map fun b =>
      bi.id.str ++ "(" ++ b.title ++ ")"

/-- Saving a new Book row: the database enforces `isbn`'s
`unique=True` and `max_length=13`, failing the insert when violated. -/
def DB.createBook (db : DB) (b : Book) : Option DB :=
  if b.isbn.length ≤ 13 && db.books.all (fun x => !(x.isbn == b.isbn)) then
    some { db with books := db.books ++ [b] }
  else
    none

/-- Deleting a Book row: `BookInstance.book` is declared
`on_delete=models.RESTRICT`, so the delete is blocked (and the state left
unchanged) while any BookInstance references the book. -/
def DB.deleteBook (db : DB) (bid : Nat) : Option DB :=
  if db.instances.any (fun bi => bi.book == some bid) then
    none
  else
    some { db with books := db.books.filter (fun b => !(b.id == bid)) }

/-- The `SET_NULL` update applied to one Book row when author `aid` is
deleted. -/
def clearAuthor (aid : Nat) (b : Book) : Book :=
  if b.author == some aid then { b with author := none } else b

/-- Deleting an Author row: `Book.author` is declared
`on_delete=models.SET_NULL, null=True`, so the delete always succeeds,
nulling the `author` field of every referencing Book. -/
def DB.deleteAuthor (db : DB) (aid : Nat) : DB :=
  { db with
    books := db.books.map (clearAuthor aid),
    authors := db.authors.filter (fun a => !(a.id == aid)) }

/-- The BookInstance row assembled by a save without an explicit primary
key: `id` drawn from `default=uuid.uuid4` on the current generator
state. -/
def newBookInstance (db : DB) (book : Option Nat) (imprint : String)
    (due_back : Option Date) (borrower : Option Nat) (s : Char) : BookInstance :=
  { id := (uuid4 db.uuidGen).1, book := book, imprint := imprint,
    due_back := due_back, borrower := borrower, status := s }

/-- Saving a new BookInstance row without an explicit primary key:
`status` defaults to `'m'` and is restricted to the
`choices=LOAN_STATUS` codes. -/
def DB.createBookInstance (db : DB) (book : Option Nat) (imprint : String)
    (due_back : Option Date) (borrower : Option Nat) (status : Option Char) :
    Option (BookInstance × DB) :=
  if loanStatusCodes.contains (status.getD 'm') then
    some (newBookInstance db book imprint due_back borrower (status.getD 'm'),
          { db with
            instances := db.instances ++
              [newBookInstance db book imprint due_back borrower (status.getD 'm')],
            uuidGen := (uuid4 db.uuidGen).2 })
  else
    none

/-- Updating the `status` of a BookInstance row: the new value is
restricted to the `choices=LOAN_STATUS` codes. -/
def DB.updateStatus (db : DB) (uid : Uuid) (s : Char) : Option DB :=
  if loanStatusCodes.contains s then
    some { db with
      instances := db.instances.map fun bi =>
        if bi.id == uid then { bi with status := s } else bi }
  else
    none

/-- Ordering key for BookInstance queries (`Meta.ordering = ['due_back']`):
a null `due_back` sorts first, dates lexicographically. -/
def instKey (bi : BookInstance) : WithBot (Nat ×ₗ (Nat ×ₗ Nat)) :=
  match bi.due_back with
  | none => ⊥
  | some d => (d.toLexKey : WithBot (Nat ×ₗ (Nat ×ₗ Nat)))

/-- The default ordering relation on BookInstance rows: by `due_back`
ascending. -/
def instLe (a b : BookInstance) : Prop := instKey a ≤ instKey b

instance : DecidableRel instLe := fun a b =>
  inferInstanceAs (Decidable (instKey a ≤ instKey b))

instance : IsTotal BookInstance instLe := ⟨fun a b => le_total (instKey a) (instKey b)⟩

instance : IsTrans BookInstance instLe := ⟨fun _ _ _ hab hbc => le_trans hab hbc⟩

/-- Ordering key for Author queries
(`Meta.ordering = ['last_name', 'first_name']`). -/
def authorKey (a : Author) : String ×ₗ String :=
  toLex (a.last_name, a.first_name)

/-- The default ordering relation on Author rows: by (last_name,
first_name). -/
def authorLe (a b : Author) : Prop := authorKey a ≤ authorKey b

instance : DecidableRel authorLe := fun a b =>
  inferInstanceAs (Decidable (authorKey a ≤ authorKey b))

instance : IsTotal Author authorLe := ⟨fun a b => le_total (authorKey a) (authorKey b)⟩

instance : IsTrans Author authorLe := ⟨fun _ _ _ hab hbc => le_trans hab hbc⟩

/-- Querying all BookInstance rows with no explicit order: the framework
applies `Meta.ordering = ['due_back']`. -/
def DB.allBookInstances (db : DB) : List BookInstance :=
  List.insertionSort instLe db.instances

/-- Querying all Author rows with no explicit order: the framework
applies `Meta.ordering = ['last_name', 'first_name']`. -/
def DB.allAuthors (db : DB) : List Author :=
  List.insertionSort authorLe db.authors

/-- The invariant of claim C3 on stored Book rows: every stored isbn is
at most 13 characters long. -/
def isbnLenInv (db : DB) : Prop := ∀ b ∈ db.books, b.isbn.length ≤ 13

/-- The invariant of claim C6 on stored BookInstance rows: every status
is one of the `LOAN_STATUS` codes. -/
def statusInv (db : DB) : Prop := ∀ bi ∈ db.instances, bi.status ∈ loanStatusCodes

/-- Claim C1: for every BookInstance, `is_overdue` is true iff `due_back`
is not null and strictly earlier than the current date; in particular a
null `due_back` gives false. -/
theorem is_overdue_iff (today : Date) (bi : BookInstance) :
    (bi.is_overdue today = true ↔
      ∃ d, bi.due_back = some d ∧ Date.ltb d today = true) ∧
    (bi.due_back = none → bi.is_overdue today = false) := by
  constructor
  · cases h : bi.due_back with
    | none => simp [BookInstance.is_overdue, h]
    | some d => simp [BookInstance.is_overdue, h]
  · intro h
    simp [BookInstance.is_overdue, h]

/-- Witness for C1: a copy due back 2024-01-10, viewed on 2024-01-15, is
overdue; a copy with no due date is not. -/
theorem is_overdue_iff_witness :
    BookInstance.is_overdue ⟨2024, 1, 15⟩
      { id := ⟨4, 0⟩, book := some 1, imprint := "X", due_back := some ⟨2024, 1, 10⟩,
        borrower := none, status := 'o' } = true ∧
    BookInstance.is_overdue ⟨2024, 1, 15⟩
      { id := ⟨4, 1⟩, book := some 1, imprint := "X", due_back := none,
        borrower := none, status := 'a' } = false := by
  constructor
  · exact (is_overdue_iff ⟨2024, 1, 15⟩ _).1.mpr ⟨⟨2024, 1, 10⟩, rfl, by decide⟩
  · exact (is_overdue_iff ⟨2024, 1, 15⟩ _).2 rfl

/-- Claim C2: `display_genre` returns the names of at most the first 3
attached genres, joined by a comma and space, in attachment order; with
no genres it returns the empty string. -/
theorem display_genre_spec (b : Book) :
    b.display_genre = String.intercalate ", " ((b.genre.map Genre.name).take 3) ∧
    (b.genre = [] → b.display_genre = "") := by
  constructor
  · simp [Book.display_genre, List.map_take]
  · intro h
    simp only [Book.display_genre, h, List.take_nil, List.map_nil]
    rfl

/-- Witness for C2: a book with four genres shows the first three; a
book with no genres shows the empty string. -/
theorem display_genre_spec_witness :
    Book.display_genre
      { id := 1, title := "T", author := none, summary := "S", isbn := "1",
        genre := [⟨1, "Fantasy"⟩, ⟨2, "Drama"⟩, ⟨3, "Poetry"⟩, ⟨4, "Horror"⟩] } =
      "Fantasy, Drama, Poetry" ∧
    Book.display_genre
      { id := 2, title := "U", author := none, summary := "S", isbn := "2",
        genre := [] } = "" := by
  constructor
  · rw [(display_genre_spec _).1]
    rfl
  · exact (display_genre_spec _).2 rfl

/-- Claim C7: querying all BookInstances without an explicit order yields
the stored rows ordered by `due_back` ascending, and querying all Authors
yields the stored rows ordered by (last_name, first_name). -/
theorem default_ordering (db : DB) :
    db.allBookInstances.Sorted instLe ∧ db.allBookInstances.Perm db.instances ∧
    db.allAuthors.Sorted authorLe ∧ db.allAuthors.Perm db.authors :=
  ⟨List.sorted_insertionSort instLe db.instances,
   List.perm_insertionSort instLe db.instances,
   List.sorted_insertionSort authorLe db.authors,
   List.perm_insertionSort authorLe db.authors⟩

/-- Claim C8: `get_absolute_url` is the reverse lookup of the named route
`book-detail` (resp. `author-detail`) at the entity's id rendered as a
string. -/
theorem get_absolute_url_spec (rev : String → List String → String)
    (b : Book) (a : Author) :
    b.get_absolute_url rev = rev "book-detail" [toString b.id] ∧
    a.get_absolute_url rev = rev "author-detail" [toString a.id] :=
  ⟨rfl, rfl⟩

/-- Claim C10: two BookInstance creations without an explicit id each
draw a fresh version-4 UUID as primary key, and the two keys are
distinct. -/
theorem uuid_pk_fresh (db : DB) (bk1 bk2 : Option Nat) (imp1 imp2 : String)
    (due1 due2 : Option Date) (bor1 bor2 : Option Nat) :
    ∃ bi1 db1 bi2 db2,
      db.createBookInstance bk1 imp1 due1 bor1 none = some (bi1, db1) ∧
      db1.createBookInstance bk2 imp2 due2 bor2 none = some (bi2, db2) ∧
      bi1.id ≠ bi2.id ∧ bi1.id.version = 4 ∧ bi2.id.version = 4 := by
  refine
    let bi1 : BookInstance :=
      { id := { version := 4, randomBits := db.uuidGen }, book := bk1,
        imprint := imp1, due_back := due1, borrower := bor1, status := 'm' }
    let db1 : DB := { db with instances := db.instances ++ [bi1], uuidGen := db.uuidGen + 1 }
    let bi2 : BookInstance :=
      { id := { version := 4, randomBits := db.uuidGen + 1 }, book := bk2,
        imprint := imp2, due_back := due2, borrower := bor2, status := 'm' }
    let db2 : DB := { db1 with instances := db1.instances ++ [bi2], uuidGen := db.uuidGen + 2 }
    ⟨bi1, db1, bi2, db2, rfl, rfl, ?_, rfl, rfl⟩
  intro h
  exact Nat.succ_ne_self db.uuidGen (congrArg Uuid.randomBits h).symm

/-- Claim C3: creating a Book whose isbn duplicates a stored Book's isbn
fails, and every stored isbn is at most 13 characters long (the
`max_length=13` bound is preserved by Book creation). -/
theorem isbn_unique_max13 (db : DB) (b : Book) :
    ((∃ x ∈ db.books, x.isbn = b.isbn) → db.createBook b = none) ∧
    (∀ db', isbnLenInv db → db.createBook b = some db' → isbnLenInv db') := by
  constructor
  · rintro ⟨x, hx, hisbn⟩
    have hall : db.books.all (fun y => !(y.isbn == b.isbn)) = false := by
      rw [List.all_eq_false]
      exact ⟨x, hx, by simp [hisbn]⟩
    simp [DB.createBook, hall]
  · intro db' hinv hsome
    unfold DB.createBook at hsome
    split at hsome
    case isTrue h =>
      have hlen : b.isbn.length ≤ 13 := by
        have := (Bool.and_eq_true _ _).mp h
        exact of_decide_eq_true this.1
      cases hsome
      intro y hy
      rcases List.mem_append.mp hy with hmem | hmem
      · exact hinv y hmem
      · rcases List.mem_singleton.mp hmem with rfl
        exact hlen
    case isFalse => cases hsome

/-- Witness for C3: with "0451526538" already stored, saving a second
Book with that isbn fails; saving one with a fresh 13-character isbn
keeps every stored isbn within 13 characters. -/
theorem isbn_unique_max13_witness :
    DB.createBook
      { genres := [], languages := [],
        books := [{ id := 1, title := "A", author := none, summary := "s",
                    isbn := "0451526538", genre := [] }],
        instances := [], authors := [], uuidGen := 0 }
      { id := 2, title := "B", author := none, summary := "t",
        isbn := "0451526538", genre := [] } = none ∧
    isbnLenInv
      { genres := [], languages := [],
        books := [{ id := 1, title := "A", author := none, summary := "s",
                    isbn := "0451526538", genre := [] },
                  { id := 2, title := "B", author := none, summary := "t",
                    isbn := "9780451526538", genre := [] }],
        instances := [], authors := [], uuidGen := 0 } := by
  constructor
  · exact (isbn_unique_max13 _ _).1
      ⟨{ id := 1, title := "A", author := none, summary := "s",
         isbn := "0451526538", genre := [] }, by simp, rfl⟩
  · exact (isbn_unique_max13
      { genres := [], languages := [],
        books := [{ id := 1, title := "A", author := none, summary := "s",
                    isbn := "0451526538", genre := [] }],
        instances := [], authors := [], uuidGen := 0 }
      { id := 2, title := "B", author := none, summary := "t",
        isbn := "9780451526538", genre := [] }).2 _
      (by intro y hy; simp at hy; subst hy; decide) rfl

/-- Claim C4: deleting a Book referenced by at least one BookInstance
fails (the `on_delete=RESTRICT` constraint), leaving the state
unchanged. -/
theorem deleteBook_restricted (db : DB) (bid : Nat)
    (h : ∃ bi ∈ db.instances, bi.book = some bid) :
    db.deleteBook bid = none := by
  obtain ⟨bi, hmem, hb⟩ := h
  have hany : db.instances.any (fun x => x.book == some bid) = true :=
    List.any_eq_true.mpr ⟨bi, hmem, by simp [hb]⟩
  simp [DB.deleteBook, hany]

/-- Witness for C4: deleting book 1 while a copy of it exists fails. -/
theorem deleteBook_restricted_witness :
    DB.deleteBook
      { genres := [], languages := [],
        books := [{ id := 1, title := "A", author := none, summary := "s",
                    isbn := "i", genre := [] }],
        instances := [{ id := ⟨4, 0⟩, book := some 1, imprint := "X",
                        due_back := none, borrower := none, status := 'a' }],
        authors := [], uuidGen := 1 } 1 = none :=
  deleteBook_restricted _ 1
    ⟨{ id := ⟨4, 0⟩, book := some 1, imprint := "X",
       due_back := none, borrower := none, status := 'a' }, by simp, rfl⟩

/-- Claim C5: deleting an Author referenced by Books succeeds (the
operation is total); afterwards each referencing Book still exists with
its author field null and every other field unchanged, and the Author
row is gone. -/
theorem deleteAuthor_set_null (db : DB) (aid : Nat) (b : Book)
    (hmem : b ∈ db.books) (hauth : b.author = some aid) :
    (∃ b' ∈ (db.deleteAuthor aid).books,
        b'.id = b.id ∧ b'.author = none ∧ b'.title = b.title ∧
        b'.summary = b.summary ∧ b'.isbn = b.isbn ∧ b'.genre = b.genre) ∧
    ∀ a ∈ (db.deleteAuthor aid).authors, a.id ≠ aid := by
  constructor
  · refine ⟨clearAuthor aid b, List.mem_map_of_mem (clearAuthor aid) hmem, ?_⟩
    simp [clearAuthor, hauth]
  · intro a ha
    have := List.of_mem_filter ha
    simpa using this

/-- Witness for C5: deleting author 7, referenced by a stored book,
leaves that book present with a null author and its other fields intact,
and removes the author. -/
theorem deleteAuthor_set_null_witness :
    (∃ b' ∈ (DB.deleteAuthor
        { genres := [], languages := [],
          books := [{ id := 1, title := "A", author := some 7, summary := "s",
                      isbn := "i", genre := [] }],
          instances := [],
          authors := [{ id := 7, first_name := "F", last_name := "L",
                        date_of_birth := none, date_of_death := none }],
          uuidGen := 0 } 7).books,
        b'.id = 1 ∧ b'.author = none ∧ b'.title = "A" ∧
        b'.summary = "s" ∧ b'.isbn = "i" ∧ b'.genre = []) ∧
    ∀ a ∈ (DB.deleteAuthor
        { genres := [], languages := [],
          books := [{ id := 1, title := "A", author := some 7, summary := "s",
                      isbn := "i", genre := [] }],
          instances := [],
          authors := [{ id := 7, first_name := "F", last_name := "L",
                        date_of_birth := none, date_of_death := none }],
          uuidGen := 0 } 7).authors, a.id ≠ 7 :=
  deleteAuthor_set_null _ 7
    { id := 1, title := "A", author := some 7, summary := "s",
      isbn := "i", genre := [] } (by simp) rfl

/-- Claim C6: the BookInstance status is restricted to the codes 'm',
'o', 'a', 'r'; creation without a status defaults to 'm'; and the
restriction is an invariant preserved by creation and by status
update. -/
theorem status_enum_invariant :
    (∀ (db : DB) bk imp due bor bi db',
        db.createBookInstance bk imp due bor none = some (bi, db') →
        bi.status = 'm') ∧
    (∀ (db : DB) bk imp due bor st bi db', statusInv db →
        db.createBookInstance bk imp due bor st = some (bi, db') →
        statusInv db') ∧
    (∀ (db : DB) uid s db', statusInv db →
        db.updateStatus uid s = some db' → statusInv db') := by
  refine ⟨?_, ?_, ?_⟩
  · intro db bk imp due bor bi db' h
    unfold DB.createBookInstance at h
    split at h
    case isTrue => cases h; rfl
    case isFalse => cases h
  · intro db bk imp due bor st bi db' hinv h
    unfold DB.createBookInstance at h
    split at h
    case isTrue hc =>
      cases h
      intro x hx
      rcases List.mem_append.mp hx with hmem | hmem
      · exact hinv x hmem
      · rcases List.mem_singleton.mp hmem with rfl
        exact List.mem_of_elem_eq_true hc
    case isFalse => cases h
  · intro db uid s db' hinv h
    unfold DB.updateStatus at h
    split at h
    case isTrue hc =>
      cases h
      intro x hx
      rcases List.mem_map.mp hx with ⟨y, hy, hxy⟩
      by_cases hid : (y.id == uid) = true
      · rw [if_pos hid] at hxy
        rw [← hxy]
        exact List.mem_of_elem_eq_true hc
      · rw [if_neg hid] at hxy
        rw [← hxy]
        exact hinv y hy
    case isFalse => cases h

/-- Witness for C6: creating a copy without a status yields status 'm';
the four-code invariant survives a creation with status 'r' and an
update to status 'o' on a concrete database. -/
theorem status_enum_invariant_witness :
    (∃ bi db', DB.createBookInstance
        { genres := [], languages := [], books := [], instances := [],
          authors := [], uuidGen := 0 } (some 1) "X" none none none =
        some (bi, db') ∧ bi.status = 'm') ∧
    statusInv
      { genres := [], languages := [], books := [],
        instances := [{ id := ⟨4, 0⟩, book := some 1, imprint := "X",
                        due_back := none, borrower := none, status := 'r' }],
        authors := [], uuidGen := 1 } ∧
    statusInv
      { genres := [], languages := [], books := [],
        instances := [{ id := ⟨4, 0⟩, book := some 1, imprint := "X",
                        due_back := none, borrower := none, status := 'o' }],
        authors := [], uuidGen := 1 } := by
  refine ⟨?_, ?_, ?_⟩
  · refine ⟨{ id := ⟨4, 0⟩, book := some 1, imprint := "X", due_back := none,
              borrower := none, status := 'm' },
            { genres := [], languages := [], books := [],
              instances := [{ id := ⟨4, 0⟩, book := some 1, imprint := "X",
                              due_back := none, borrower := none, status := 'm' }],
              authors := [], uuidGen := 1 }, rfl, ?_⟩
    exact status_enum_invariant.1
      { genres := [], languages := [], books := [], instances := [],
        authors := [], uuidGen := 0 } (some 1) "X" none none
      { id := ⟨4, 0⟩, book := some 1, imprint := "X", due_back := none,
        borrower := none, status := 'm' }
      { genres := [], languages := [], books := [],
        instances := [{ id := ⟨4, 0⟩, book := some 1, imprint := "X",
                        due_back := none, borrower := none, status := 'm' }],
        authors := [], uuidGen := 1 } rfl
  · exact status_enum_invariant.2.1
      { genres := [], languages := [], books := [], instances := [],
        authors := [], uuidGen := 0 } (some 1) "X" none none (some 'r')
      { id := ⟨4, 0⟩, book := some 1, imprint := "X", due_back := none,
        borrower := none, status := 'r' } _
      (by intro x hx; simp at hx) rfl
  · exact status_enum_invariant.2.2
      { genres := [], languages := [], books := [],
        instances := [{ id := ⟨4, 0⟩, book := some 1, imprint := "X",
                        due_back := none, borrower := none, status := 'r' }],
        authors := [], uuidGen := 1 } ⟨4, 0⟩ 'o' _
      (by intro x hx; simp at hx; subst hx; decide) rfl

/-- Claim C9: the BookInstance string form is defined only when the book
reference resolves: with a stored referenced book it is the id followed
by the book's title in parentheses, and with a null book reference the
unguarded `self.book.title` access fails (rendered `none`). -/
theorem strRepr_requires_book (db : DB) (bi : BookInstance) :
    (bi.book = none → bi.strRepr db = none) ∧
    (∀ bid b, bi.book = some bid →
        (db.books.find? fun x => x.id == bid) = some b →
        bi.strRepr db = some (bi.id.str ++ "(" ++ b.title ++ ")")) := by
  constructor
  · intro h
    simp [BookInstance.strRepr, h]
  · intro bid b hb hfind
    simp [BookInstance.strRepr, hb, hfind]

/-- Witness for C9: a copy whose book reference is null has no string
form; one referencing stored book 1 renders as `0(A)`. -/
theorem strRepr_requires_book_witness :
    BookInstance.strRepr
      { genres := [], languages := [],
        books := [{ id := 1, title := "A", author := none, summary := "s",
                    isbn := "i", genre := [] }],
        instances := [], authors := [], uuidGen := 0 }
      { id := ⟨4, 0⟩, book := none, imprint := "X", due_back := none,
        borrower := none, status := 'a' } = none ∧
    BookInstance.strRepr
      { genres := [], languages := [],
        books := [{ id := 1, title := "A", author := none, summary := "s",
                    isbn := "i", genre := [] }],
        instances := [], authors := [], uuidGen := 0 }
      { id := ⟨4, 0⟩, book := some 1, imprint := "X", due_back := none,
        borrower := none, status := 'a' } = some "0(A)" := by
  constructor
  · exact (strRepr_requires_book _ _).1 rfl
  · exact (strRepr_requires_book _
      { id := ⟨4, 0⟩, book := some 1, imprint := "X", due_back := none,
        borrower := none, status := 'a' }).2 1
      { id := 1, title := "A", author := none, summary := "s",
        isbn := "i", genre := [] } rfl rfl

end Catalog
